import Mathlib

/-!
Verification development for `conda_build/os_utils/liefldd.py`, the static
shared-library dependency resolver (ELF / Mach-O / PE).

The Python source is shallowly embedded: each Python function of interest is
translated to an executable Lean definition of the same name.  Python string
methods (`replace`, `split`, `startswith`, `endswith`, `rstrip`, `in`) are
modelled by explicit recursions over `List Char` with the exact CPython
semantics (left-to-right, non-overlapping replacement; `''.split(sep) = ['']`;
etc.).  The filesystem and the LIEF binary parser are external capabilities;
they are modelled as an `Env` record of abstract functions
(`fsExists : String → Bool`, `parse : String → Option Binary`), where
`parse f = none` stands for "LIEF produced no binary object for `f`"
(missing file or unparseable file).

Python runtime errors that the source can actually raise (AttributeError on a
`None` dereference, KeyError on a missing dict key, NameError-like misuse of
the builtin `input`) are modelled with `Except String`: an `.error` value marks
a point where the CPython interpreter would raise out of the function.
-/

namespace Liefldd

/-! ## Python string primitives -/

/-- `listStartsWith s pat` : does the char list `s` start with `pat`?
Models Python `s.startswith(pat)` on the underlying characters. -/
def listStartsWith : List Char → List Char → Bool
  | _, [] => true
  | [], _ :: _ => false
  | c :: cs, p :: ps => c == p && listStartsWith cs ps

/-- Python `s.startswith(pat)`. -/
def pyStartsWith (s pat : String) : Bool :=
  listStartsWith s.data pat.data

/-- Python `s.endswith(pat)`. -/
def pyEndsWith (s pat : String) : Bool :=
  listStartsWith s.data.reverse pat.data.reverse

/-- `listContainsSub pat s` : does `s` contain `pat` as a contiguous
substring?  Models Python `pat in s`. -/
def listContainsSub (pat : List Char) : List Char → Bool
  | [] => listStartsWith [] pat
  | c :: cs => listStartsWith (c :: cs) pat || listContainsSub pat cs

/-- Python `sub in s` (substring containment). -/
def pyContains (s sub : String) : Bool :=
  listContainsSub sub.data s.data

/-- One fuel-indexed step of Python `str.replace`: scan `s` left to right,
replacing each non-overlapping occurrence of `pat` by `rep`.  The fuel is
always instantiated with `s.length`, which suffices because every step
consumes at least one character of `s`. -/
def pyReplaceFuel (pat rep : List Char) : Nat → List Char → List Char
  | _, [] => []
  | 0, s => s
  | fuel + 1, c :: cs =>
    if pat.isEmpty then c :: cs
    else if listStartsWith (c :: cs) pat then
      rep ++ pyReplaceFuel pat rep fuel (List.drop (pat.length - 1) cs)
    else
      c :: pyReplaceFuel pat rep fuel cs

/-- Python `s.replace(pat, rep)` (all non-overlapping occurrences,
left to right; the replacement text is not rescanned). -/
def pyReplace (s pat rep : String) : String :=
  String.mk (pyReplaceFuel pat.data rep.data s.data.length s.data)

/-- Split a char list at every occurrence of the character `sep`.
`[] ↦ [[]]`, matching Python `''.split(sep) == ['']`. -/
def pySplitCharList (sep : Char) : List Char → List (List Char)
  | [] => [[]]
  | c :: cs =>
    let rest := pySplitCharList sep cs
    if c == sep then [] :: rest
    else
      match rest with
      | r :: rs => (c :: r) :: rs
      | [] => [[c]]

/-- Python `s.split(sep)` for a single-character separator. -/
def pySplit (sep : Char) (s : String) : List String :=
  (pySplitCharList sep s.data).map String.mk

/-- Python truthiness of a string: `''` is falsy, all other strings truthy. -/
def pyTruthyS (s : String) : Bool :=
  !(s == "")

/-- Python truthiness of an optional string: `None` and `''` are falsy. -/
def pyTruthyO : Option String → Bool
  | none => false
  | some s => pyTruthyS s

/-- Python `s.rstrip('/')`. -/
def pyRstripSlash (s : String) : String :=
  String.mk (s.data.reverse.dropWhile (fun c => c == '/')).reverse

/-- `posixpath.dirname(p)`: everything up to (excluding) the last `/`,
with trailing slashes stripped unless the head is all slashes. -/
def dirname (p : String) : String :=
  let headRev := p.data.reverse.dropWhile (fun c => !(c == '/'))
  let headRev2 :=
    if headRev.isEmpty || headRev.all (fun c => c == '/') then headRev
    else headRev.dropWhile (fun c => c == '/')
  String.mk headRev2.reverse

/-- `posixpath.join(a, b)` for two components. -/
def osPathJoin (a b : String) : String :=
  if pyStartsWith b "/" then b
  else if a == "" || pyEndsWith a "/" then a ++ b
  else a ++ "/" ++ b

/-! ## Data model: parsed binaries (the LIEF capability's output)

The claims only concern binaries whose `binary.format` is one of
`lief.EXE_FORMATS.{ELF, MACHO, PE}`, so the format tag carries exactly those
three values.  The fields mirror the LIEF attributes the source reads. -/

/-- `lief.EXE_FORMATS` (restricted to the three formats the source handles). -/
inductive ExeFormat
  | ELF
  | MACHO
  | PE
deriving DecidableEq, Repr

/-- `lief.ELF.ELF_CLASS` (`CLASSNONE` stands for any unrecognized class). -/
inductive ElfClass
  | CLASS32
  | CLASS64
  | CLASSNONE
deriving DecidableEq, Repr

/-- `lief.MachO.LOAD_COMMAND_TYPES` (the two tags the source tests, plus a
catch-all). -/
inductive LcType
  | RPATH
  | ID_DYLIB
  | LC_OTHER
deriving DecidableEq, Repr

/-- A Mach-O load command: the source reads `command.command`,
`command.path` (for `RPATH`) and `command.name` (for `ID_DYLIB`). -/
structure LoadCommand where
  command : LcType
  path : String
  name : String
deriving DecidableEq, Repr

/-- An ELF dynamic-section entry, discriminated by `e.tag` as in the source
(`RUNPATH` entries carry `e.runpath`, `RPATH` entries `e.rpath`,
`SONAME` entries `e.name`). -/
inductive DynEntry
  | runpathE (s : String)
  | rpathE (s : String)
  | sonameE (s : String)
  | otherE
deriving DecidableEq, Repr

/-- A parsed binary as the source consumes it from LIEF:
`format`, `type` (ELF class), `ehdr.sz_ptr`, `has_rpath`, `commands`,
`dynamic_entries`, `libraries`, `name`, and the PE DLL characteristic bit. -/
structure Binary where
  format : ExeFormat
  type : ElfClass
  sz_ptr : Nat
  has_rpath : Bool
  commands : List LoadCommand
  dynamic_entries : List DynEntry
  libraries : List String
  name : String
  isDLL : Bool
deriving DecidableEq, Repr

/-- The external world: filesystem existence probes (`os.path.exists`) and
the LIEF parser (`lief.parse`).  `parse f = none` models both "the file does
not exist" and "LIEF failed to produce a binary object": in either case the
caller holds no usable binary. -/
structure Env where
  fsExists : String → Bool
  parse : String → Option Binary

/-! ## Token translation (`to_os_varnames` / `from_os_varnames`) -/

/-- `to_os_varnames(binary, input_)` — canonical → native direction.

Source lines 197–209.  The Mach-O branch substitutes the three canonical
tokens.  The ELF branch reads `input.replace(...)`: `input` is the Python
*builtin function*, not the parameter `input_`, so at runtime the attribute
access raises `AttributeError` — modelled as `.error`.  There is no PE (or
other-format) branch, so Python falls off the end of the function and returns
`None` — modelled as `.ok none`. -/
def to_os_varnames (binary : Binary) (input_ : String) :
    Except String (Option String) :=
  if binary.format = ExeFormat.MACHO then
    Except.ok (some (pyReplace (pyReplace (pyReplace input_
      "$SELFDIR" "@loader_path") "$EXEDIR" "@executable_path")
      "$RPATH" "@rpath"))
  else if binary.format = ExeFormat.ELF then
    Except.error
      "AttributeError: builtin input has no attribute replace (line 208)"
  else
    Except.ok none

/-- `from_os_varnames(binary, input_)` — native → canonical direction.

Source lines 212–226.  Mach-O maps `@loader_path ↦ $SELFDIR`,
`@executable_path ↦ $EXEDIR`, `@rpath ↦ $RPATH`; ELF maps
`$ORIGIN ↦ $SELFDIR` and `$LIB ↦ /lib or /lib64` (by ELF class); PE returns
the input unchanged. -/
def from_os_varnames (binary : Binary) (input_ : String) : String :=
  if binary.format = ExeFormat.MACHO then
    pyReplace (pyReplace (pyReplace input_
      "@loader_path" "$SELFDIR") "@executable_path" "$EXEDIR")
      "@rpath" "$RPATH"
  else if binary.format = ExeFormat.ELF then
    let libdir := if binary.type = ElfClass.CLASS64 then "/lib64" else "/lib"
    pyReplace (pyReplace input_ "$ORIGIN" "$SELFDIR") "$LIB" libdir
  else
    input_

/-! ## `_trim_sysroot` -/

/-- `_trim_sysroot(sysroot)` — source lines 89–92: repeatedly drop the last
character while the string ends with `/` or `\`. -/
def _trim_sysroot (sysroot : String) : String :=
  String.mk
    ((sysroot.data.reverse.dropWhile (fun c => c == '/' || c == '\\')).reverse)

/-! ## Search-path collection (`_get_path_dirs`, `get_rpaths`) -/

/-- `_get_path_dirs(prefix)` — source lines 230–235: the fixed ordered list of
environment-relative binary directories. -/
def _get_path_dirs (pfx : String) : List String :=
  [osPathJoin (osPathJoin (osPathJoin pfx "Library") "mingw-w64") "bin",
   osPathJoin (osPathJoin (osPathJoin pfx "Library") "usr") "bin",
   osPathJoin (osPathJoin pfx "Library") "bin",
   osPathJoin pfx "Scripts",
   osPathJoin pfx "bin"]

/-- The RUNPATH strings of an ELF binary's dynamic section, in entry order
(`[e.runpath for e in dynamic_entries if e.tag == RUNPATH]`). -/
def elfRunpathEntries (binary : Binary) : List String :=
  binary.dynamic_entries.filterMap fun e =>
    match e with
    | DynEntry.runpathE s => some s
    | _ => none

/-- The RPATH strings of an ELF binary's dynamic section, in entry order
(`[e.rpath for e in dynamic_entries if e.tag == RPATH]`). -/
def elfRpathEntries (binary : Binary) : List String :=
  binary.dynamic_entries.filterMap fun e =>
    match e with
    | DynEntry.rpathE s => some s
    | _ => none

/-- `get_rpaths(file, exe_dirname, envroot, windows_root)` — source lines
115–154.  The `file` argument is the result of `ensure_binary` (`none` for
every falsy value: missing file, parse failure).  `exe_dirname` is optional
because the walker passes `None` for a PE file with no known host executable.

PE with falsy `exe_dirname` returns `[]` early (before the canonicalization
map).  Otherwise: PE builds `[exe_dir] (+ windows dirs) (+ env bin dirs)`;
Mach-O collects the `LC_RPATH` load-command paths (right-stripped of `/`);
ELF of a recognized class takes the colon-split RUNPATH entries, falling back
to RPATH entries only when no RUNPATH entry exists.  Every collected entry is
finally mapped through `from_os_varnames`. -/
def get_rpaths (file : Option Binary) (exe_dirname : Option String)
    (envroot : String) (windows_root : String) : List String :=
  match file with
  | none => []
  | some binary =>
    if binary.format = ExeFormat.PE ∧ ¬ (pyTruthyO exe_dirname = true) then
      []
    else
      let rpaths : List String :=
        if binary.format = ExeFormat.PE then
          [pyReplace (exe_dirname.getD "") "\\" "/"]
            ++ (if pyTruthyS windows_root then
                  [windows_root ++ "/System32", windows_root]
                else [])
            ++ (if pyTruthyS envroot then _get_path_dirs envroot else [])
        else if binary.format = ExeFormat.MACHO ∧ binary.has_rpath then
          binary.commands.filterMap fun c =>
            if c.command = LcType.RPATH then some (pyRstripSlash c.path)
            else none
        else if binary.format = ExeFormat.ELF ∧
            (binary.type = ElfClass.CLASS32 ∨ binary.type = ElfClass.CLASS64) then
          let rpaths_colons :=
            if (elfRunpathEntries binary).isEmpty then elfRpathEntries binary
            else elfRunpathEntries binary
          (rpaths_colons.map (fun s => pySplit ':' s)).flatten
        else []
      rpaths.map (from_os_varnames binary)

/-! ## `get_libraries` and `get_uniqueness_key` -/

/-- `get_libraries(file)` — source lines 95–112.  PE returns the import list
as-is.  Mach-O drops entries ending in the binary's own `ID_DYLIB` install
name (when one exists and is truthy) and canonicalizes the rest through
`from_os_varnames`.  ELF (and any non-PE, non-Mach-O) returns the raw list. -/
def get_libraries (file : Option Binary) : List String :=
  match file with
  | none => []
  | some binary =>
    if binary.format = ExeFormat.PE then binary.libraries
    else
      let binary_name : Option String :=
        if binary.format = ExeFormat.MACHO ∧ binary.has_rpath then
          (binary.commands.filterMap fun c =>
            if c.command = LcType.ID_DYLIB then some c.name else none).head?
        else none
      if binary.format = ExeFormat.MACHO then
        (binary.libraries.filter fun l =>
          !(pyTruthyO binary_name && pyEndsWith l (binary_name.getD ""))).map
          (from_os_varnames binary)
      else binary.libraries

/-- `get_uniqueness_key(file)` — source lines 238–250: Mach-O uses the
binary's name (install name); an ELF binary of recognized class uses the first
SONAME dynamic entry when one exists, else its name; everything else uses the
name. -/
def get_uniqueness_key (binary : Binary) : String :=
  if binary.format = ExeFormat.MACHO then binary.name
  else if binary.format = ExeFormat.ELF ∧
      (binary.type = ElfClass.CLASS32 ∨ binary.type = ElfClass.CLASS64) then
    match binary.dynamic_entries.filterMap (fun e =>
        match e with
        | DynEntry.sonameE s => some s
        | _ => none) with
    | [] => binary.name
    | s :: _ => s
  else binary.name

/-! ## `_get_resolved_location` -/

/-- The candidate substitution performed inside the `$RPATH` resolution loop:
`unresolved.replace('$RPATH', rpath).replace('$SELFDIR', selfdir)
.replace('$EXEDIR', exedir)` (source lines 307–309). -/
def substCandidate (unresolved rpath selfdir exedir : String) : String :=
  pyReplace (pyReplace (pyReplace unresolved "$RPATH" rpath)
    "$SELFDIR" selfdir) "$EXEDIR" exedir

/-- The `for rpath in these_rpaths` search loop of `_get_resolved_location`
(source lines 306–315): returns the first candidate whose substituted path
satisfies the break condition (`resolved_rpath or exists or exists_sysroot`),
together with the substituted path and the `exists_sysroot` flag; `none` when
the loop falls through without a break. -/
def resolveLoop (fsE : String → Bool)
    (unresolved selfdir exedir sysroot : String) (forced : Bool) :
    List String → Option (String × String × Bool)
  | [] => none
  | rpath :: rest =>
    let resolved := substCandidate unresolved rpath selfdir exedir
    let ex := fsE resolved
    let exSys := ex && pyTruthyS sysroot && pyStartsWith resolved sysroot
    if forced || ex || exSys then some (resolved, rpath, exSys)
    else resolveLoop fsE unresolved selfdir exedir sysroot forced rest

/-- `_get_resolved_location(codefile, unresolved, exedir, selfdir,
rpaths_transitive, LD_LIBRARY_PATH, default_paths, sysroot, resolved_rpath)`
— source lines 253–330.  Returns `(resolved location, rpath used, in-sysroot)`.
The filesystem probe is the explicit final argument.  The `codefile` parameter
is unused by the source body and kept for signature fidelity. -/
def _get_resolved_location (codefile : Binary) (unresolved : String)
    (exedir selfdir : String) (rpaths_transitive : List String)
    (LD_LIBRARY_PATH : String) (default_paths : List String) (sysroot : String)
    (resolved_rpath : Option String) (fsE : String → Bool) :
    String × Option String × Bool :=
  let _ := codefile
  let ld_library_paths :=
    if pyTruthyS LD_LIBRARY_PATH then pySplit ':' LD_LIBRARY_PATH else []
  if pyStartsWith unresolved "$RPATH" then
    let these_rpaths :=
      if pyTruthyO resolved_rpath then [resolved_rpath.getD ""]
      else
        rpaths_transitive ++ ld_library_paths ++
          default_paths.map (fun dp => pyReplace dp "$SYSROOT/" sysroot)
    match resolveLoop fsE unresolved selfdir exedir sysroot
        (pyTruthyO resolved_rpath) these_rpaths with
    | some (resolved, rpath, exSys) => (resolved, some rpath, exSys)
    | none => (unresolved, none, false)
  else if pyContains unresolved "$SELFDIR" || pyContains unresolved "$EXEDIR" then
    let resolved := pyReplace (pyReplace unresolved "$SELFDIR" selfdir)
      "$EXEDIR" exedir
    let ex := fsE resolved
    let exSys := ex && pyTruthyS sysroot && pyStartsWith resolved sysroot
    (resolved, none, exSys)
  else if pyStartsWith unresolved "/" then
    (unresolved, none, false)
  else
    (osPathJoin selfdir unresolved, none, false)

/-! ## The dependency-graph walker (`inspect_linkages_lief`)

Python dicts are modelled as prepend-association lists (`dinsert` shadows any
older binding; `dlookup` finds the newest).  Python sets of strings are
modelled as duplicate-free lists with `setAdd`.  The `while todo:` /
`for element in todo: todo.pop(0)` construct is modelled exactly as CPython
executes it: the `for` iterator keeps its own index `i` into the *live* list,
each body iteration first pops the front element (shifting the list left), so
the iterator visits elements `0, 2, 4, …` of the evolving list and the pass
ends when the index reaches the current length; the remaining tail feeds the
next `while` round.  All loops are fuel-indexed; enough fuel makes the model
agree with the terminating Python runs. -/

/-- `d[k] = v` on a Python dict (newest binding shadows older ones). -/
def dinsert {α : Type} (d : List (String × α)) (k : String) (v : α) :
    List (String × α) :=
  (k, v) :: d

/-- `d[k]` on a Python dict; `none` means the access would raise `KeyError`. -/
def dlookup {α : Type} (d : List (String × α)) (k : String) : Option α :=
  (d.find? (fun kv => kv.1 == k)).map (fun kv => kv.2)

/-- `s.add(x)` on a Python set modelled as a duplicate-free list. -/
def setAdd (s : List String) (x : String) : List String :=
  if s.contains x then s else s ++ [x]

/-- `ensure_binary(file)` for a filename argument — source lines 37–47: a
missing path yields `[]` (falsy) and a parse failure yields `None` (falsy);
both collapse to `none` since callers only test truthiness. -/
def ensure_binary_path (env : Env) (file : String) : Option Binary :=
  if env.fsExists file then env.parse file else none

/-- `codefile_type_liefldd(file)` — source lines 68–82 (bound to
`codefile_type` because `have_lief` holds): classifies a file by parsing it.
`lief.PE.DLL_CHARACTERISTICS` is a truthy enum class, so the PE branch always
tests the DLL characteristic bit. -/
def codefile_type_liefldd (env : Env) (file : String) : Option String :=
  match ensure_binary_path env file with
  | none => none
  | some binary =>
    if binary.format = ExeFormat.PE then
      if binary.isDLL then some "DLLfile" else some "EXEfile"
    else if binary.format = ExeFormat.MACHO then some "machofile"
    else some "elffile"

/-- The walker's mutable state: `already_seen` (a set of uniqueness keys),
`results` (the result set), `rpaths_by_binary` and `parents_by_filename`
(dicts), plus a ghost trace `processed` recording the `filename2` of every
node that passed the `already_seen` guard (i.e. whose own references were
processed). -/
structure WalkSt where
  already_seen : List String
  results : List String
  rpaths_by_binary : List (String × List String)
  parents_by_filename : List (String × Option String)
  processed : List String
deriving DecidableEq, Repr

/-- The per-walk constants of `inspect_linkages_lief`: the root's directory,
the configuration arguments, and the `default_paths` computed once from the
root binary's format. -/
structure WalkCfg where
  exedir : String
  sysroot : String
  envroot : String
  resolve_filenames : Bool
  recurse : Bool
  default_paths : List String
deriving Repr

/-- The PE host-executable search (source lines 365–370): walk the parent
chain upward from `filename2`; the first ancestor classified `EXEfile` fixes
`parent_exe_dirname` to its directory.  A missing dict entry is a `KeyError`
(`.error`). -/
def peHostDirLoop (env : Env) (parents : List (String × Option String)) :
    Nat → Option String → Option String → Except String (Option String)
  | 0, _, _ => Except.error "fuel exhausted (parent chain)"
  | _ + 1, none, acc => Except.ok acc
  | fuel + 1, some tmp, acc =>
    if pyTruthyS tmp then
      let acc' :=
        if !(pyTruthyO acc) && (codefile_type_liefldd env tmp == some "EXEfile")
        then some (dirname tmp)
        else acc
      match dlookup parents tmp with
      | none => Except.error "KeyError: parents_by_filename"
      | some parent => peHostDirLoop env parents fuel parent acc'
    else Except.ok acc

/-- The transitive search-path accumulation (source lines 377–384, non-PE
case): walk the parent chain from `filename2`, prepending each ancestor's own
collected paths (`rpaths_transitive[:0] = rpaths_by_binary[tmp_filename]`),
so the final order is root-first.  A missing dict entry is a `KeyError`. -/
def transRpathsLoop (rpathsBy : List (String × List String))
    (parents : List (String × Option String)) :
    Nat → Option String → List String → Except String (List String)
  | 0, _, _ => Except.error "fuel exhausted (rpath chain)"
  | _ + 1, none, acc => Except.ok acc
  | fuel + 1, some tmp, acc =>
    if pyTruthyS tmp then
      match dlookup rpathsBy tmp with
      | none => Except.error "KeyError: rpaths_by_binary"
      | some rp =>
        match dlookup parents tmp with
        | none => Except.error "KeyError: parents_by_filename"
        | some parent => transRpathsLoop rpathsBy parents fuel parent (rp ++ acc)
    else Except.ok acc

/-- The `for orig in these_orig` resolution loop (source lines 392–407):
resolve each reference, record it in `results` (the resolved path when
`resolve_filenames`, else the canonical reference), record the parent link,
and — when recursing and the resolved path exists — eagerly parse and enqueue
it.  Returns the updated `(results, parents, appended worklist items)`. -/
def processRefs (env : Env) (cf : WalkCfg) (binary : Binary)
    (filename2 : String) (rpathsTrans : List String) :
    List String →
    List String × List (String × Option String) × List (String × Option Binary) →
    List String × List (String × Option String) × List (String × Option Binary)
  | [], acc => acc
  | orig :: rest, (results, parents, newTodo) =>
    let resolved := _get_resolved_location binary orig cf.exedir cf.exedir
      rpathsTrans "" cf.default_paths cf.sysroot none env.fsExists
    let results' :=
      if cf.resolve_filenames then setAdd results resolved.1
      else setAdd results orig
    let parents' :=
      if cf.resolve_filenames then dinsert parents resolved.1 (some filename2)
      else parents
    let newTodo' :=
      if cf.recurse && env.fsExists resolved.1 then
        newTodo ++ [(resolved.1, env.parse resolved.1)]
      else newTodo
    processRefs env cf binary filename2 rpathsTrans rest
      (results', parents', newTodo')

/-- Process one dequeued worklist element (source lines 360–408).  An element
whose stored binary is `none` (a `lief.parse` that produced nothing at
enqueue time, line 407) raises on the `get_uniqueness_key` dereference.
Returns the updated state and the items the body appended to `todo`. -/
def processElement (env : Env) (cf : WalkCfg) (fuel : Nat) (st : WalkSt)
    (item : String × Option Binary) :
    Except String (WalkSt × List (String × Option Binary)) :=
  match item.2 with
  | none => Except.error "AttributeError: NoneType has no attribute format"
  | some binary =>
    let filename2 := item.1
    if st.already_seen.contains (get_uniqueness_key binary) then
      Except.ok (st, [])
    else
      (if binary.format = ExeFormat.PE then
        peHostDirLoop env st.parents_by_filename fuel (some filename2) none
      else Except.ok (some cf.exedir)).bind fun parent_exe_dirname =>
      -- envroot.replace(os.sep, '/') is the identity under the POSIX
      -- separator; sysroot is passed positionally as windows_root.
      let rpathsOwn := get_rpaths (some binary) parent_exe_dirname
        cf.envroot cf.sysroot
      let rpathsBy := dinsert st.rpaths_by_binary filename2 rpathsOwn
      (if binary.format = ExeFormat.PE then Except.ok rpathsOwn
       else transRpathsLoop rpathsBy st.parents_by_filename fuel
         (some filename2) []).bind fun rpathsTrans =>
      let libraries := get_libraries (some binary)
      let libraries :=
        if libraries.contains filename2 then libraries.erase filename2
        else libraries
      let these_orig := libraries.map fun lib =>
        if !(pyStartsWith lib "/") && !(pyStartsWith lib "$") &&
            !(binary.format = ExeFormat.MACHO : Bool) then
          "$RPATH/" ++ lib
        else lib
      let stepped := processRefs env cf binary filename2 rpathsTrans
        these_orig (st.results, st.parents_by_filename, [])
      Except.ok
        ({ already_seen := setAdd st.already_seen (get_uniqueness_key binary)
           results := stepped.1
           rpaths_by_binary := rpathsBy
           parents_by_filename := stepped.2.1
           processed := st.processed ++ [filename2] }, stepped.2.2)

/-- One execution of `for element in todo: todo.pop(0); …` over the live
list: `i` is the iterator's internal index.  The element is fetched *before*
the body pops the front, exactly as CPython's list iterator behaves under
mutation. -/
def forPass (env : Env) (cf : WalkCfg) :
    Nat → WalkSt → List (String × Option Binary) → Nat →
    Except String (WalkSt × List (String × Option Binary))
  | 0, _, _, _ => Except.error "fuel exhausted (for pass)"
  | fuel + 1, st, todo, i =>
    match todo[i]? with
    | none => Except.ok (st, todo)
    | some element =>
      (processElement env cf fuel st element).bind fun step =>
        forPass env cf fuel step.1 (todo.drop 1 ++ step.2) (i + 1)

/-- The outer `while todo:` loop: run a fresh `for` pass over whatever
remains, until the worklist empties. -/
def whileLoop (env : Env) (cf : WalkCfg) :
    Nat → WalkSt → List (String × Option Binary) → Except String WalkSt
  | 0, _, _ => Except.error "fuel exhausted (while loop)"
  | fuel + 1, st, todo =>
    if todo.isEmpty then Except.ok st
    else
      (forPass env cf fuel st todo 0).bind fun step =>
        whileLoop env cf fuel step.1 step.2

/-- `inspect_linkages_lief(filename, resolve_filenames, recurse, sysroot,
envroot, arch)` — source lines 334–409.  The root file is parsed by a *bare*
`lief.parse(filename)` (line 340, no `ensure_binary` guard): when the parser
yields nothing — missing or unparseable file — the subsequent
`binary.format` access (line 344) dereferences `None` and raises
(`.error`).  Otherwise the format-specific `default_paths` are fixed from the
root binary and the walk runs to completion.  Returns the final walker state
(its `results` field is the Python return value). -/
def inspect_linkages_lief (env : Env) (fuel : Nat) (filename : String)
    (resolve_filenames recurse : Bool) (sysroot envroot : String) :
    Except String WalkSt :=
  let exedir := dirname filename
  match env.parse filename with
  | none => Except.error "AttributeError: NoneType has no attribute format"
  | some binary =>
    let default_paths :=
      if binary.format = ExeFormat.ELF then
        ["$SYSROOT/lib", "$SYSROOT/usr/lib"] ++
          (if binary.type = ElfClass.CLASS64 then
            ["$SYSROOT/lib64", "$SYSROOT/usr/lib64"]
          else [])
      else if binary.format = ExeFormat.MACHO then ["$SYSROOT/usr/lib"]
      else ["$SYSROOT/System32/Wbem", "$SYSROOT/System32/WindowsPowerShell/v1.0"]
    let cf : WalkCfg :=
      { exedir := exedir, sysroot := sysroot, envroot := envroot
        resolve_filenames := resolve_filenames, recurse := recurse
        default_paths := default_paths }
    whileLoop env cf fuel
      { already_seen := [], results := [], rpaths_by_binary := []
        parents_by_filename := [(filename, none)], processed := [] }
      [(filename, some binary)]

/-- `get_linkages(filename, …)` — source lines 412–425: computes the LIEF
result first (any exception there propagates), cross-checks it against the
external `pyldd` reference implementation only to print a warning, and
returns the LIEF result unconditionally. -/
def get_linkages (env : Env) (fuel : Nat) (filename : String)
    (resolve_filenames recurse : Bool) (sysroot envroot : String) :
    Except String WalkSt :=
  inspect_linkages_lief env fuel filename resolve_filenames recurse
    sysroot envroot

/-! ## General lemmas -/

/-- Substring non-containment rules out being a prefix: the first disjunct of
`listContainsSub` is exactly `listStartsWith`. -/
lemma pyStartsWith_eq_false_of_pyContains_eq_false {s sub : String}
    (h : pyContains s sub = false) : pyStartsWith s sub = false := by
  unfold pyContains at h
  unfold pyStartsWith
  cases hd : s.data with
  | nil =>
    rw [hd] at h
    simpa [listContainsSub] using h
  | cons c cs =>
    rw [hd] at h
    simp only [listContainsSub, Bool.or_eq_false_iff] at h
    exact h.1

/-- If no candidate's substituted path exists, the `$RPATH` search loop
(without a forced rpath) falls through. -/
lemma resolveLoop_eq_none_of_all_missing (fsE : String → Bool)
    (u sd ed sys : String) (l : List String)
    (h : ∀ rp ∈ l, fsE (substCandidate u rp sd ed) = false) :
    resolveLoop fsE u sd ed sys false l = none := by
  induction l with
  | nil => rfl
  | cons a t ih =>
    have ha : fsE (substCandidate u a sd ed) = false := h a (by simp)
    simp only [resolveLoop, ha]
    simpa using ih (fun rp hm => h rp (List.mem_cons_of_mem a hm))

/-- When the `$RPATH` search loop does break, the rpath it reports is one of
the candidates it was given. -/
lemma resolveLoop_used_mem (fsE : String → Bool) (u sd ed sys : String)
    (forced : Bool) (l : List String) (res rp : String) (b : Bool)
    (h : resolveLoop fsE u sd ed sys forced l = some (res, rp, b)) :
    rp ∈ l := by
  induction l with
  | nil => simp [resolveLoop] at h
  | cons a t ih =>
    simp only [resolveLoop] at h
    by_cases hc : (forced ||
        fsE (substCandidate u a sd ed) ||
        (fsE (substCandidate u a sd ed) && pyTruthyS sys &&
          pyStartsWith (substCandidate u a sd ed) sys)) = true
    · rw [if_pos hc] at h
      have h2 : a = rp := by
        have := congrArg (fun x : String × String × Bool => x.2.1)
          (Option.some.inj h)
        simpa using this
      exact h2 ▸ List.mem_cons_self a t
    · rw [if_neg hc] at h
      exact List.mem_cons_of_mem a (ih h)

/-! ## C1 — ELF RUNPATH precedence in `get_rpaths` -/

/-- Characterization of `get_rpaths` on a recognized-class ELF binary with at
least one RUNPATH entry: the colon-split RUNPATH directories, canonicalized. -/
lemma get_rpaths_elf_char (bb : Binary) (ed : Option String) (er wr : String)
    (hbf : bb.format = ExeFormat.ELF)
    (hbc : bb.type = ElfClass.CLASS32 ∨ bb.type = ElfClass.CLASS64)
    (hbr : elfRunpathEntries bb ≠ []) :
    get_rpaths (some bb) ed er wr =
      ((elfRunpathEntries bb).map (fun s => pySplit ':' s)).flatten.map
        (from_os_varnames bb) := by
  unfold get_rpaths
  dsimp only
  rw [hbf]
  simp [List.isEmpty_iff, hbr, hbc]

/-- C1: for an ELF binary of recognized 32/64-bit class with at least one
RUNPATH dynamic entry, `get_rpaths` returns exactly the colon-split RUNPATH
directories, in order (each canonicalized through `from_os_varnames`, as the
source's final mapping does), and the result is unchanged no matter how many
RPATH dynamic entries the binary also declares. -/
theorem C1_elf_runpath_precedence (b : Binary) (ed : Option String)
    (er wr : String) (hf : b.format = ExeFormat.ELF)
    (hc : b.type = ElfClass.CLASS32 ∨ b.type = ElfClass.CLASS64)
    (hr : elfRunpathEntries b ≠ []) :
    get_rpaths (some b) ed er wr =
      (((elfRunpathEntries b).map (fun s => pySplit ':' s)).flatten).map
        (from_os_varnames b) ∧
    ∀ extra : List String,
      get_rpaths
        (some { b with dynamic_entries :=
          b.dynamic_entries ++ extra.map DynEntry.rpathE }) ed er wr =
      get_rpaths (some b) ed er wr := by
  have hrun :
      ∀ extra : List String,
        elfRunpathEntries { b with dynamic_entries :=
          b.dynamic_entries ++ extra.map DynEntry.rpathE } =
        elfRunpathEntries b := by
    intro extra
    unfold elfRunpathEntries
    simp [List.filterMap_append, List.filterMap_map, Function.comp]
  refine ⟨get_rpaths_elf_char b ed er wr hf hc hr, fun extra => ?_⟩
  have hr2 :
      elfRunpathEntries
        { b with
          dynamic_entries := b.dynamic_entries ++ extra.map DynEntry.rpathE } ≠
        [] := by
    rw [hrun extra]; exact hr
  have hf2 :
      ({ b with
        dynamic_entries :=
          b.dynamic_entries ++ extra.map DynEntry.rpathE } : Binary).format =
        ExeFormat.ELF := hf
  have hc2 :
      ({ b with
        dynamic_entries :=
          b.dynamic_entries ++ extra.map DynEntry.rpathE } : Binary).type =
          ElfClass.CLASS32 ∨
        ({ b with
          dynamic_entries :=
            b.dynamic_entries ++ extra.map DynEntry.rpathE } : Binary).type =
          ElfClass.CLASS64 := hc
  rw [get_rpaths_elf_char _ ed er wr hf2 hc2 hr2,
    get_rpaths_elf_char b ed er wr hf hc hr, hrun extra]
  exact rfl

/-- C1 witness: a concrete ELF binary carrying RUNPATH `/opt/run:$ORIGIN/x`
and two RPATH entries; the collected paths are the canonicalized colon-split
RUNPATH directories only. -/
theorem C1_elf_runpath_precedence_witness :
    get_rpaths (some
      { format := ExeFormat.ELF, type := ElfClass.CLASS64, sz_ptr := 8,
        has_rpath := false, commands := [],
        dynamic_entries :=
          [DynEntry.rpathE "/opt/old", DynEntry.runpathE "/opt/run:$ORIGIN/x",
           DynEntry.rpathE "/opt/old2"],
        libraries := [], name := "w", isDLL := false }) none "" "" =
      ["/opt/run", "$SELFDIR/x"] :=
  ((C1_elf_runpath_precedence _ none "" "" rfl (Or.inr rfl)
      (by decide)).1).trans (by decide)

/-! ## C2 — `$RPATH` resolution failure returns the reference verbatim -/

/-- C2: for a reference starting with `$RPATH`, with no forced rpath, if no
candidate directory (transitive search paths, then colon-split
LD_LIBRARY_PATH, then sysroot-substituted default paths) yields an existing
substituted path, `_get_resolved_location` returns the original reference
unchanged with no used search path and `in_sysroot = false`. -/
theorem C2_unresolved_returned_verbatim (cb : Binary) (fsE : String → Bool)
    (unresolved exedir selfdir : String) (rpaths_transitive : List String)
    (LD : String) (default_paths : List String) (sysroot : String)
    (h1 : pyStartsWith unresolved "$RPATH" = true)
    (h2 : ∀ rp ∈ rpaths_transitive ++
        (if pyTruthyS LD then pySplit ':' LD else []) ++
        default_paths.map (fun dp => pyReplace dp "$SYSROOT/" sysroot),
      fsE (substCandidate unresolved rp selfdir exedir) = false) :
    _get_resolved_location cb unresolved exedir selfdir rpaths_transitive LD
      default_paths sysroot none fsE = (unresolved, none, false) := by
  unfold _get_resolved_location
  simp only [h1, pyTruthyO, if_true, Bool.false_eq_true, if_false]
  rw [resolveLoop_eq_none_of_all_missing fsE unresolved selfdir exedir sysroot
    _ h2]

/-- C2 witness: a concrete failed lookup (`$RPATH/libz.so` against two
candidate directories and one default path, with an empty filesystem). -/
theorem C2_unresolved_returned_verbatim_witness :
    _get_resolved_location
      { format := ExeFormat.ELF, type := ElfClass.CLASS64, sz_ptr := 8,
        has_rpath := false, commands := [], dynamic_entries := [],
        libraries := [], name := "w", isDLL := false }
      "$RPATH/libz.so" "/e" "/e" ["/a", "/b"] "/l1:/l2" ["$SYSROOT/lib"] "/sys"
      none (fun _ => false) = ("$RPATH/libz.so", none, false) :=
  C2_unresolved_returned_verbatim _ _ _ _ _ _ _ _ _ (by decide)
    (fun rp _ => rfl)

/-! ## C9 — absolute references are returned unchanged -/

/-- C9: a reference that starts with `/` and contains none of the tokens
`$RPATH`, `$SELFDIR`, `$EXEDIR` is returned unchanged by
`_get_resolved_location`, with no used search path, for every combination of
search-path stack, LD_LIBRARY_PATH, default paths, sysroot and forced
rpath. -/
theorem C9_absolute_reference_unchanged (cb : Binary) (fsE : String → Bool)
    (unresolved exedir selfdir : String) (rpaths_transitive : List String)
    (LD : String) (default_paths : List String) (sysroot : String)
    (resolved_rpath : Option String)
    (h1 : pyStartsWith unresolved "/" = true)
    (h2 : pyContains unresolved "$RPATH" = false)
    (h3 : pyContains unresolved "$SELFDIR" = false)
    (h4 : pyContains unresolved "$EXEDIR" = false) :
    _get_resolved_location cb unresolved exedir selfdir rpaths_transitive LD
      default_paths sysroot resolved_rpath fsE = (unresolved, none, false) := by
  have h2' := pyStartsWith_eq_false_of_pyContains_eq_false h2
  unfold _get_resolved_location
  simp [h1, h2', h3, h4]

/-- C9 witness: `/usr/lib/libm.so` is returned unchanged against a populated
search-path configuration and a filesystem where everything exists. -/
theorem C9_absolute_reference_unchanged_witness :
    _get_resolved_location
      { format := ExeFormat.MACHO, type := ElfClass.CLASSNONE, sz_ptr := 8,
        has_rpath := false, commands := [], dynamic_entries := [],
        libraries := [], name := "w", isDLL := false }
      "/usr/lib/libm.so" "/e" "/s" ["/a"] "/l" ["$SYSROOT/lib"] "/sys"
      (some "/forced") (fun _ => true) = ("/usr/lib/libm.so", none, false) :=
  C9_absolute_reference_unchanged _ _ _ _ _ _ _ _ _ _
    (by decide) (by decide) (by decide) (by decide)

/-! ## C5 — `to_os_varnames` is broken on ELF and PE -/

/-- C5: evaluation of `to_os_varnames` on each format.  On a Mach-O binary it
is the claimed substitution; on an ELF binary it raises (`input` in the source
is the Python builtin, not the `input_` parameter, and a builtin has no
`replace` attribute); on a PE binary no branch matches and Python returns
`None`, not the text unchanged.  This refutes totality and the ELF/PE rows of
the claimed mapping table. -/
theorem C5_to_os_varnames_not_total :
    to_os_varnames
        { format := ExeFormat.MACHO, type := ElfClass.CLASSNONE, sz_ptr := 8,
          has_rpath := false, commands := [], dynamic_entries := [],
          libraries := [], name := "m", isDLL := false } "$SELFDIR/x" =
      Except.ok (some "@loader_path/x") ∧
    to_os_varnames
        { format := ExeFormat.ELF, type := ElfClass.CLASS64, sz_ptr := 8,
          has_rpath := false, commands := [], dynamic_entries := [],
          libraries := [], name := "e", isDLL := false } "$SELFDIR/x" =
      Except.error
        "AttributeError: builtin input has no attribute replace (line 208)" ∧
    to_os_varnames
        { format := ExeFormat.PE, type := ElfClass.CLASSNONE, sz_ptr := 8,
          has_rpath := false, commands := [], dynamic_entries := [],
          libraries := [], name := "p", isDLL := false } "abc" =
      Except.ok none ∧
    Except.ok none ≠
      (Except.ok (some "abc") : Except String (Option String)) := by
  refine ⟨rfl, rfl, rfl, by simp⟩

/-! ## C3 — absent input path makes `inspect_linkages_lief` raise -/

/-- C3: when the root `lief.parse(filename)` (source line 340, called with no
`ensure_binary` guard and no exception handler) produces no binary —
in particular when `filename` does not exist on disk — the very next
attribute access `binary.format` (line 344) dereferences `None` and an
exception propagates out of `inspect_linkages_lief`; the result is an error,
not an empty set. -/
theorem C3_absent_path_raises (env : Env) (fuel : Nat) (filename : String)
    (rf rc : Bool) (sysroot envroot : String)
    (h : env.parse filename = none) :
    inspect_linkages_lief env fuel filename rf rc sysroot envroot =
      Except.error "AttributeError: NoneType has no attribute format" := by
  unfold inspect_linkages_lief
  rw [h]

/-- C3 witness: the concrete empty world (no files, nothing parseable). -/
theorem C3_absent_path_raises_witness :
    inspect_linkages_lief
        { fsExists := fun _ => false, parse := fun _ => none } 16
        "/does/not/exist.so" true true "" "" =
      Except.error "AttributeError: NoneType has no attribute format" :=
  C3_absent_path_raises _ 16 "/does/not/exist.so" true true "" "" rfl

/-! ## C8 — PE with unknown host executable directory -/

/-- C8: a PE binary whose host executable directory is unknown (falsy:
`None` or empty) contributes an empty search-path list from `get_rpaths`,
whatever the `envroot` and `windows_root` arguments are; consequently a
`$RPATH`-relative reference resolved against an empty transitive stack either
comes back unchanged (unresolved) or was satisfied by an LD_LIBRARY_PATH
entry or a (sysroot-substituted) default path. -/
theorem C8_pe_unknown_exedir (b : Binary) (exe_dirname : Option String)
    (er wr : String) (hf : b.format = ExeFormat.PE)
    (hd : pyTruthyO exe_dirname = false) :
    get_rpaths (some b) exe_dirname er wr = [] ∧
    ∀ (cb : Binary) (fsE : String → Bool) (ref exedir selfdir LD sysroot :
        String) (dps : List String),
      pyStartsWith ref "$RPATH" = true →
      (_get_resolved_location cb ref exedir selfdir [] LD dps sysroot none
          fsE = (ref, none, false) ∨
        ∃ used,
          (_get_resolved_location cb ref exedir selfdir [] LD dps sysroot
            none fsE).2.1 = some used ∧
          used ∈ (if pyTruthyS LD then pySplit ':' LD else []) ++
            dps.map (fun dp => pyReplace dp "$SYSROOT/" sysroot)) := by
  constructor
  · unfold get_rpaths
    dsimp only
    rw [if_pos ⟨hf, by rw [hd]; exact Bool.false_ne_true⟩]
  · intro cb fsE ref exedir selfdir LD sysroot dps href
    unfold _get_resolved_location
    simp only [href, pyTruthyO, if_true, Bool.false_eq_true, if_false]
    cases hres : resolveLoop fsE ref selfdir exedir sysroot false
        (([] : List String) ++ (if pyTruthyS LD then pySplit ':' LD else []) ++
          dps.map (fun dp => pyReplace dp "$SYSROOT/" sysroot)) with
    | none => simp [hres]
    | some triple =>
      obtain ⟨res, rp, ex⟩ := triple
      have hmem := resolveLoop_used_mem fsE ref selfdir exedir sysroot false _
        res rp ex hres
      rw [List.nil_append] at hmem
      simp only [hres]
      exact Or.inr ⟨rp, rfl, hmem⟩

/-- C8 witness: concrete PE library with `exe_dirname = None`, populated
`envroot` and `windows_root`; no rpaths are collected, and a `$RPATH`
reference resolves only through LD_LIBRARY_PATH (here: to `/ld/libz.dll` via
the `/ld` entry). -/
theorem C8_pe_unknown_exedir_witness :
    get_rpaths
        (some
          { format := ExeFormat.PE, type := ElfClass.CLASSNONE,
            sz_ptr := 4, has_rpath := false, commands := [],
            dynamic_entries := [], libraries := [], name := "w",
            isDLL := true })
        none "/env" "C:/Windows" = [] :=
  (C8_pe_unknown_exedir _ none "/env" "C:/Windows" rfl rfl).1

/-! ## C10 — sysroot trimming in the public `linkages` path -/

/-- A string that does not end in `/` or `\` is untouched by
`_trim_sysroot`. -/
lemma _trim_sysroot_eq_self (s : String)
    (h1 : pyEndsWith s "/" = false) (h2 : pyEndsWith s "\\" = false) :
    _trim_sysroot s = s := by
  unfold _trim_sysroot
  suffices hh : s.data.reverse.dropWhile (fun c => c == '/' || c == '\\') =
      s.data.reverse by
    show String.mk _ = s
    rw [hh, List.reverse_reverse]
  unfold pyEndsWith at h1 h2
  cases hrev : s.data.reverse with
  | nil => rfl
  | cons c rest =>
    rw [hrev] at h1 h2
    have hc1 : (c == '/') = false := by
      have hpat : ("/" : String).data.reverse = ['/'] := rfl
      rw [hpat] at h1
      simpa [listStartsWith] using h1
    have hc2 : (c == '\\') = false := by
      have hpat : ("\\" : String).data.reverse = ['\\'] := rfl
      rw [hpat] at h2
      simpa [listStartsWith] using h2
    simp [List.dropWhile, hc1, hc2]

/-- C10 (amended): the public walk uses `sysroot` exactly as passed —
`_trim_sysroot` is never applied on this path — so the claimed equivalence
only holds when the sysroot has no trailing separator (where trimming is the
identity). -/
theorem C10_sysroot_used_verbatim (env : Env) (fuel : Nat) (filename : String)
    (rf rc : Bool) (sysroot envroot : String)
    (h1 : pyEndsWith sysroot "/" = false)
    (h2 : pyEndsWith sysroot "\\" = false) :
    inspect_linkages_lief env fuel filename rf rc sysroot envroot =
      inspect_linkages_lief env fuel filename rf rc (_trim_sysroot sysroot)
        envroot := by
  rw [_trim_sysroot_eq_self sysroot h1 h2]

/-- A recognized-class ELF binary with no dynamic entries, used by the
concrete walk scenarios below. -/
def mkElf (cls : ElfClass) (nm : String) (libs : List String) : Binary :=
  { format := ExeFormat.ELF, type := cls, sz_ptr := 8, has_rpath := false,
    commands := [], dynamic_entries := [], libraries := libs, name := nm,
    isDLL := false }

/-- Concrete world for the C10 counterexample: an ELF executable `/e/app`
referencing the bare name `libfoo.so`, and a real file `/r/lib/libfoo.so`. -/
def envTrim : Env :=
  { fsExists := fun p => p == "/e/app" || p == "/r/lib/libfoo.so",
    parse := fun p =>
      if p == "/e/app" then
        some (mkElf ElfClass.CLASS32 "/e/app" ["libfoo.so"])
      else if p == "/r/lib/libfoo.so" then
        some (mkElf ElfClass.CLASS32 "libfoo-soname" [])
      else none }

/-- C10 counterexample: with sysroot `"/r/"` the walk resolves
`$RPATH/libfoo.so` through the substituted default path `/r/lib` and returns
`{/r/lib/libfoo.so}`; with the trimmed sysroot `"/r"` the default-path
substitution (`'$SYSROOT/'.replace → sysroot`) yields `/rlib`, nothing
exists, and the walk returns the unresolved marker `{$RPATH/libfoo.so}`.
The two result sets differ, so `linkages` with `S` and with
`_trim_sysroot S` do not agree: trailing separators are *not* stripped on
the public path. -/
theorem C10_counterexample_trailing_separator_matters :
    _trim_sysroot "/r/" = "/r" ∧
    (inspect_linkages_lief envTrim 16 "/e/app" true true "/r/" "").toOption.map
      (fun st => st.results) = some ["/r/lib/libfoo.so"] ∧
    (inspect_linkages_lief envTrim 16 "/e/app" true true "/r" "").toOption.map
      (fun st => st.results) = some ["$RPATH/libfoo.so"] ∧
    ¬ (["/r/lib/libfoo.so"] : List String) = ["$RPATH/libfoo.so"] := by
  exact ⟨by decide, by decide, by decide, by decide⟩

/-- C10 witness (for the amended theorem): a concrete separator-free sysroot
behaves identically to its trimmed form. -/
theorem C10_sysroot_used_verbatim_witness :
    inspect_linkages_lief envTrim 16 "/e/app" true true "/r" "" =
      inspect_linkages_lief envTrim 16 "/e/app" true true
        (_trim_sysroot "/r") "" :=
  C10_sysroot_used_verbatim envTrim 16 "/e/app" true true "/r" ""
    (by decide) (by decide)

/-! ## C7 — the walk is *not* invariant under reference reordering -/

/-- Concrete world for C7, parameterized by the order of the root's two
references: `/a/app` references `/p/libB.so` and `/p/libC.so` (in the given
order); `libB` references `/p/libX.so`; `libC` and `libX` reference
nothing.  All four files exist. -/
def envOrd (libsA : List String) : Env :=
  { fsExists := fun p => p == "/a/app" || p == "/p/libB.so" ||
      p == "/p/libC.so" || p == "/p/libX.so",
    parse := fun p =>
      if p == "/a/app" then some (mkElf ElfClass.CLASS64 "/a/app" libsA)
      else if p == "/p/libB.so" then
        some (mkElf ElfClass.CLASS64 "/p/libB.so" ["/p/libX.so"])
      else if p == "/p/libC.so" then
        some (mkElf ElfClass.CLASS64 "/p/libC.so" [])
      else if p == "/p/libX.so" then
        some (mkElf ElfClass.CLASS64 "/p/libX.so" [])
      else none }

/-- C7: two runs on worlds identical except for the order of the root's own
library-reference list return *different* result sets.  With order `[B, C]`
the mid-iteration `todo.pop(0)` makes the `for` iterator skip `B`'s queue
entry (it is popped at the top of the iteration that fetched `C`), `B`'s own
references are never processed, and `/p/libX.so` is absent from the result;
with order `[C, B]` the run processes `B` and reports `/p/libX.so`.  The
no-duplicates half of the claim does hold (`results` is a Python set), but
order-invariance fails. -/
theorem C7_not_order_invariant :
    (inspect_linkages_lief (envOrd ["/p/libB.so", "/p/libC.so"]) 32 "/a/app"
        true true "" "").toOption.map (fun st => st.results) =
      some ["/p/libB.so", "/p/libC.so"] ∧
    (inspect_linkages_lief (envOrd ["/p/libC.so", "/p/libB.so"]) 32 "/a/app"
        true true "" "").toOption.map (fun st => st.results) =
      some ["/p/libC.so", "/p/libB.so", "/p/libX.so"] ∧
    ("/p/libX.so" ∈ (["/p/libC.so", "/p/libB.so", "/p/libX.so"] : List String)
      ∧ "/p/libX.so" ∉ (["/p/libB.so", "/p/libC.so"] : List String)) := by
  exact ⟨by decide, by decide, by decide, by decide⟩

/-! ## C4 — `@rpath` + `@loader_path` resolution for a transitive binary -/

/-- A Mach-O node: `nm` is the binary's (install) name, `cmds` its load
commands, `libs` its raw library references. -/
def mkMachO (nm : String) (hasRp : Bool) (cmds : List LoadCommand)
    (libs : List String) : Binary :=
  { format := ExeFormat.MACHO, type := ElfClass.CLASSNONE, sz_ptr := 8,
    has_rpath := hasRp, commands := cmds, dynamic_entries := [],
    libraries := libs, name := nm, isDLL := false }

/-- Concrete world for C4: the root artifact `/r/app` (directory `/r`)
references the transitive dylib `/s/libB.dylib` (directory `/s`), which
carries `LC_RPATH @loader_path/../lib` and references
`@rpath/libfoo.dylib`.  The parameter fixes which candidate target paths
exist on disk. -/
def envMach (extraFiles : List String) : Env :=
  { fsExists := fun p => p == "/s/libB.dylib" || extraFiles.contains p,
    parse := fun p =>
      if p == "/r/app" then
        some (mkMachO "app-id" false [] ["/s/libB.dylib"])
      else if p == "/s/libB.dylib" then
        some (mkMachO "libB-id" true
          [{ command := LcType.RPATH, path := "@loader_path/../lib",
             name := "" }]
          ["@rpath/libfoo.dylib"])
      else if p == "/r/../lib/libfoo.dylib" then
        some (mkMachO "libfoo-id" false [] [])
      else none }

/-- C4 counterexample: in the world where `<binaryDir>/../lib/libfoo.dylib`
= `/s/../lib/libfoo.dylib` (the *referencing* binary's own directory) exists,
the walk does **not** resolve to it: `_get_resolved_location` receives the
root's directory `/r` for both `exedir` and `selfdir` (source lines
393–396), substitutes `$SELFDIR ↦ /r`, probes `/r/../lib/libfoo.dylib`
(absent) and the sysroot-substituted default, and returns the reference
unresolved.  The claimed resolved path is absent from the result set even
though it exists on disk. -/
theorem C4_counterexample_selfdir_is_root_dir :
    (envMach ["/s/../lib/libfoo.dylib"]).fsExists "/s/../lib/libfoo.dylib"
      = true ∧
    (inspect_linkages_lief (envMach ["/s/../lib/libfoo.dylib"]) 16 "/r/app"
        true true "" "").toOption.map (fun st => st.results) =
      some ["/s/libB.dylib", "$RPATH/libfoo.dylib"] ∧
    ¬ "/s/../lib/libfoo.dylib" ∈
      (["/s/libB.dylib", "$RPATH/libfoo.dylib"] : List String) := by
  exact ⟨by decide, by decide, by decide⟩

/-- C4 (amended): the `@rpath/libfoo.dylib` reference of the transitive
dylib, combined with its `LC_RPATH @loader_path/../lib`, resolves to
`<rootDir>/../lib/libfoo.dylib` — where `<rootDir>` is the *root artifact's*
directory, because the walker passes the root's directory as `selfdir` for
every node — when that file exists; when it does not exist, the reference
stays in canonical unresolved form `$RPATH/libfoo.dylib`. -/
theorem C4_amended_loader_path_resolves_against_root_dir :
    (inspect_linkages_lief (envMach ["/r/../lib/libfoo.dylib"]) 16 "/r/app"
        true true "" "").toOption.map (fun st => st.results) =
      some ["/s/libB.dylib", "/r/../lib/libfoo.dylib"] ∧
    (inspect_linkages_lief (envMach []) 16 "/r/app"
        true true "" "").toOption.map (fun st => st.results) =
      some ["/s/libB.dylib", "$RPATH/libfoo.dylib"] := by
  exact ⟨by decide, by decide⟩

/-! ## C6 — diamond dependency: D is processed exactly once

Computation lemmas used to run the walker symbolically: on `mkElf` nodes the
per-binary extraction functions reduce definitionally, and a token-free
absolute reference resolves to itself (the third branch of
`_get_resolved_location`). -/

/-- Uniqueness key of a recognized-class ELF node with no SONAME: its name. -/
lemma key_mkElf64 (nm : String) (libs : List String) :
    get_uniqueness_key (mkElf ElfClass.CLASS64 nm libs) = nm := rfl

/-- `mkElf` nodes are ELF. -/
lemma format_mkElf (cls : ElfClass) (nm : String) (libs : List String) :
    (mkElf cls nm libs).format = ExeFormat.ELF := rfl

/-- An ELF node without dynamic entries contributes no search paths. -/
lemma get_rpaths_mkElf64 (nm : String) (libs : List String)
    (ed : Option String) (er wr : String) :
    get_rpaths (some (mkElf ElfClass.CLASS64 nm libs)) ed er wr = [] := rfl

/-- `get_libraries` of an ELF node is its raw reference list. -/
lemma get_libraries_mkElf64 (nm : String) (libs : List String) :
    get_libraries (some (mkElf ElfClass.CLASS64 nm libs)) = libs := rfl

/-- A token-free reference starting with `/` resolves to itself with no used
search path (third branch of `_get_resolved_location`). -/
lemma resolve_absolute (cb : Binary) (fsE : String → Bool)
    (ref ed sd : String) (rt : List String) (LD : String)
    (dps : List String) (sys : String)
    (h1 : pyStartsWith ref "/" = true)
    (h2 : pyStartsWith ref "$RPATH" = false)
    (h3 : pyContains ref "$SELFDIR" = false)
    (h4 : pyContains ref "$EXEDIR" = false) :
    _get_resolved_location cb ref ed sd rt LD dps sys none fsE =
      (ref, none, false) := by
  unfold _get_resolved_location
  simp [h1, h2, h3, h4]

set_option maxHeartbeats 4000000 in
/-- C6: in every diamond-shaped walk — a root `pa` referencing `pb` and `pc`,
both of which reference the same `pd` (references given as distinct,
token-free absolute paths; all three dependency files exist; any sysroot and
envroot) — the walk succeeds, `pd`'s resolved path appears exactly once in
the result set, and the walker processes `pd`'s own references exactly once
(the processed trace is `[pa, pc, pd]`: the second enqueue of a node whose
uniqueness key is already in the visited set is skipped). -/
theorem C6_diamond_dependency_once (env : Env) (pa pb pc pd : String)
    (sysroot envroot : String)
    (hpa : env.parse pa = some (mkElf ElfClass.CLASS64 pa [pb, pc]))
    (hpb : env.parse pb = some (mkElf ElfClass.CLASS64 pb [pd]))
    (hpc : env.parse pc = some (mkElf ElfClass.CLASS64 pc [pd]))
    (hpd : env.parse pd = some (mkElf ElfClass.CLASS64 pd []))
    (hfb : env.fsExists pb = true) (hfc : env.fsExists pc = true)
    (hfd : env.fsExists pd = true)
    (hab : pa ≠ pb) (hac : pa ≠ pc) (had : pa ≠ pd)
    (hbc : pb ≠ pc) (hbd : pb ≠ pd) (hcd : pc ≠ pd)
    (hane : pa ≠ "") (hcne : pc ≠ "") (hdne : pd ≠ "")
    (hb1 : pyStartsWith pb "/" = true) (hc1 : pyStartsWith pc "/" = true)
    (hd1 : pyStartsWith pd "/" = true)
    (hb2 : pyStartsWith pb "$RPATH" = false)
    (hc2 : pyStartsWith pc "$RPATH" = false)
    (hd2 : pyStartsWith pd "$RPATH" = false)
    (hb3 : pyContains pb "$SELFDIR" = false)
    (hc3 : pyContains pc "$SELFDIR" = false)
    (hd3 : pyContains pd "$SELFDIR" = false)
    (hb4 : pyContains pb "$EXEDIR" = false)
    (hc4 : pyContains pc "$EXEDIR" = false)
    (hd4 : pyContains pd "$EXEDIR" = false) :
    (inspect_linkages_lief env 32 pa true true sysroot envroot).toOption.map
      (fun st => (st.results, st.processed)) =
      some ([pb, pc, pd], [pa, pc, pd]) ∧
    List.count pd [pb, pc, pd] = 1 ∧
    List.count pd [pa, pc, pd] = 1 := by
  have eab : (pa == pb) = false := beq_eq_false_iff_ne.mpr hab
  have eba : (pb == pa) = false := beq_eq_false_iff_ne.mpr (Ne.symm hab)
  have eac : (pa == pc) = false := beq_eq_false_iff_ne.mpr hac
  have eca : (pc == pa) = false := beq_eq_false_iff_ne.mpr (Ne.symm hac)
  have ead : (pa == pd) = false := beq_eq_false_iff_ne.mpr had
  have eda : (pd == pa) = false := beq_eq_false_iff_ne.mpr (Ne.symm had)
  have ebc : (pb == pc) = false := beq_eq_false_iff_ne.mpr hbc
  have ecb : (pc == pb) = false := beq_eq_false_iff_ne.mpr (Ne.symm hbc)
  have ebd : (pb == pd) = false := beq_eq_false_iff_ne.mpr hbd
  have edb : (pd == pb) = false := beq_eq_false_iff_ne.mpr (Ne.symm hbd)
  have ecd : (pc == pd) = false := beq_eq_false_iff_ne.mpr hcd
  have edc : (pd == pc) = false := beq_eq_false_iff_ne.mpr (Ne.symm hcd)
  have ea0 : (pa == "") = false := beq_eq_false_iff_ne.mpr hane
  have ec0 : (pc == "") = false := beq_eq_false_iff_ne.mpr hcne
  have ed0 : (pd == "") = false := beq_eq_false_iff_ne.mpr hdne
  refine ⟨?_, ?_, ?_⟩
  · simp only [inspect_linkages_lief, whileLoop, forPass, processElement,
      processRefs, transRpathsLoop, dinsert, dlookup, setAdd, pyTruthyO,
      pyTruthyS,
      hpa, hpb, hpc, hpd, hfb, hfc, hfd,
      key_mkElf64, format_mkElf, get_rpaths_mkElf64, get_libraries_mkElf64,
      resolve_absolute,
      eab, eba, eac, eca, ead, eda, ebc, ecb, ebd, edb, ecd, edc,
      ea0, ec0, ed0,
      hb1, hc1, hd1, hb2, hc2, hd2, hb3, hc3, hd3, hb4, hc4, hd4,
      List.contains, List.elem, List.find?, List.isEmpty,
      List.map, List.append_eq, List.nil_append,
      List.cons_append, List.getElem?_cons_zero, List.getElem?_cons_succ,
      List.getElem?_nil, List.drop,
      Bool.false_and, Bool.true_and, Bool.and_false, Bool.and_true,
      Bool.or_false, Bool.false_or, Bool.not_true, Bool.not_false,
      beq_self_eq_true, if_true, if_false, Except.bind, Except.toOption,
      Option.map, Option.getD, List.append_nil, reduceCtorEq, reduceIte]
  · simp [List.count_cons, hbd, hcd]
  · simp [List.count_cons, had, hcd]

/-- Concrete diamond world for the C6 witness. -/
def envDiamond : Env :=
  { fsExists := fun p => p == "/a/app" || p == "/p/libB.so" ||
      p == "/p/libC.so" || p == "/p/libD.so",
    parse := fun p =>
      if p == "/a/app" then
        some (mkElf ElfClass.CLASS64 "/a/app" ["/p/libB.so", "/p/libC.so"])
      else if p == "/p/libB.so" then
        some (mkElf ElfClass.CLASS64 "/p/libB.so" ["/p/libD.so"])
      else if p == "/p/libC.so" then
        some (mkElf ElfClass.CLASS64 "/p/libC.so" ["/p/libD.so"])
      else if p == "/p/libD.so" then
        some (mkElf ElfClass.CLASS64 "/p/libD.so" [])
      else none }

/-- C6 witness: the concrete diamond `/a/app → /p/libB.so, /p/libC.so`,
both referencing `/p/libD.so`. -/
theorem C6_diamond_dependency_once_witness :
    (inspect_linkages_lief envDiamond 32 "/a/app" true true "" "").toOption.map
      (fun st => (st.results, st.processed)) =
      some (["/p/libB.so", "/p/libC.so", "/p/libD.so"],
        ["/a/app", "/p/libC.so", "/p/libD.so"]) ∧
    List.count "/p/libD.so"
      ["/p/libB.so", "/p/libC.so", "/p/libD.so"] = 1 ∧
    List.count "/p/libD.so" ["/a/app", "/p/libC.so", "/p/libD.so"] = 1 :=
  C6_diamond_dependency_once envDiamond "/a/app" "/p/libB.so" "/p/libC.so"
    "/p/libD.so" "" "" rfl rfl rfl rfl rfl rfl rfl
    (by decide) (by decide) (by decide) (by decide) (by decide) (by decide)
    (by decide) (by decide) (by decide)
    (by decide) (by decide) (by decide) (by decide) (by decide) (by decide)
    (by decide) (by decide) (by decide) (by decide) (by decide) (by decide)

end Liefldd

-- quick sanity examples for the string layer (concrete, kernel-checked)
example : Liefldd.pyReplace "aaa" "aa" "b" = "ba" := by decide
example : Liefldd.pyReplace "$RPATH/libfoo" "$RPATH" "/opt/run" = "/opt/run/libfoo" := by decide
example : Liefldd.pySplit ':' "a:/b:" = ["a", "/b", ""] := by decide
example : Liefldd.pySplit ':' "" = [""] := by decide
example : Liefldd.pyContains "/x/SELF/y" "SELF" = true := by decide
example : Liefldd.pyContains "/x/y" "SELF" = false := by decide
example : Liefldd.dirname "/r/app" = "/r" := by decide
example : Liefldd.dirname "app" = "" := by decide
example : Liefldd.dirname "/app" = "/" := by decide
example : Liefldd.pyRstripSlash "@loader_path/../lib//" = "@loader_path/../lib" := by decide
example : Liefldd.osPathJoin "/a" "b" = "/a/b" := by decide
example : Liefldd.osPathJoin "/a" "/b" = "/b" := by decide
example : Liefldd.osPathJoin "" "b" = "b" := by decide
